import Mathlib

/-!
Shallow embedding of the `dot_tree` repository (file `src/tree-py/src/__init__.py`).

The source defines:
* a dataclass `SubItem` with a single integer attribute `length`;
* a class `Tree` with a class-level annotation `subitems : list` and two
  static methods:
  - `Tree.open(file_path)`: opens the file as a `ConstBitStream` inside a
    `with` block, reads `8 * 8` bits, and raises
    `InvalidFileIdentifier(f"Invalid file identifier: {bytes.decode('utf-8')}")`
    when the bytes differ from `b"NEKOTREE"`; otherwise it falls off the end
    of the function (returning `None`);
  - `Tree.create(file_path, subitems)`: body is `pass`.

A file is modelled as a `List Nat` of its bytes.  External primitives are
modelled after their documented behaviour:
* `ConstBitStream.read(n)` raises `ReadError` when fewer than `n` bits are
  available, else returns the bits and advances the position (only the
  byte-aligned reads performed by the source are modelled);
* the `with` statement closes the stream on every exit path, normal or
  exceptional;
* `bytes.decode('utf-8')` is strict UTF-8 decoding, raising
  `UnicodeDecodeError` on invalid input (rejecting surrogates, overlong
  encodings, code points above U+10FFFF and truncated sequences).

The `exceptions` module that defines the `InvalidFileIdentifier` class is not
included under `src/`; following the spec (error taxonomy section) it is the
single error kind, carrying a descriptive message, and is modelled here as a
constructor of `TreeError` holding that message.
-/

namespace DotTree

/-- The ASCII bytes of the literal `b"NEKOTREE"` the source compares against. -/
def NEKOTREE : List Nat := [0x4E, 0x45, 0x4B, 0x4F, 0x54, 0x52, 0x45, 0x45]

/-- Decode one UTF-8 scalar value from the front of a byte list, returning the
code point and the remaining bytes, or `none` if the bytes do not start with a
valid UTF-8 sequence (strict decoding, as performed by `bytes.decode('utf-8')`
in the source's error-message construction). -/
def utf8DecodeStep : List Nat → Option (Nat × List Nat)
  | [] => none
  | b :: rest =>
    if b ≤ 0x7F then some (b, rest)
    else if 0xC2 ≤ b ∧ b ≤ 0xDF then
      match rest with
      | c1 :: rest1 =>
        if 0x80 ≤ c1 ∧ c1 ≤ 0xBF then
          some ((b - 0xC0) * 0x40 + (c1 - 0x80), rest1)
        else none
      | [] => none
    else if 0xE0 ≤ b ∧ b ≤ 0xEF then
      match rest with
      | c1 :: c2 :: rest2 =>
        if (if b = 0xE0 then 0xA0 ≤ c1 ∧ c1 ≤ 0xBF
            else if b = 0xED then 0x80 ≤ c1 ∧ c1 ≤ 0x9F
            else 0x80 ≤ c1 ∧ c1 ≤ 0xBF) ∧ 0x80 ≤ c2 ∧ c2 ≤ 0xBF then
          some ((b - 0xE0) * 0x1000 + (c1 - 0x80) * 0x40 + (c2 - 0x80), rest2)
        else none
      | _ => none
    else if 0xF0 ≤ b ∧ b ≤ 0xF4 then
      match rest with
      | c1 :: c2 :: c3 :: rest3 =>
        if (if b = 0xF0 then 0x90 ≤ c1 ∧ c1 ≤ 0xBF
            else if b = 0xF4 then 0x80 ≤ c1 ∧ c1 ≤ 0x8F
            else 0x80 ≤ c1 ∧ c1 ≤ 0xBF) ∧
            (0x80 ≤ c2 ∧ c2 ≤ 0xBF) ∧ (0x80 ≤ c3 ∧ c3 ≤ 0xBF) then
          some ((b - 0xF0) * 0x40000 + (c1 - 0x80) * 0x1000 +
                (c2 - 0x80) * 0x40 + (c3 - 0x80), rest3)
        else none
      | _ => none
    else none

/-- Fuel-indexed strict UTF-8 decoding of a whole byte list into code points.
Each step consumes at least one byte, so fuel equal to the list length
suffices. -/
def utf8DecodeFuel : Nat → List Nat → Option (List Nat)
  | _, [] => some []
  | 0, _ :: _ => none
  | fuel + 1, b :: rest =>
    match utf8DecodeStep (b :: rest) with
    | some (cp, rest1) => (utf8DecodeFuel fuel rest1).map (fun cps => cp :: cps)
    | none => none

/-- Strict UTF-8 decoding of a byte list into its code points, `none` exactly
when Python's `bytes.decode('utf-8')` raises `UnicodeDecodeError`. -/
def utf8Decode (bs : List Nat) : Option (List Nat) :=
  utf8DecodeFuel bs.length bs

/-- Render a list of Unicode code points as a Lean string (the text produced
by `bytes.decode('utf-8')` on success). -/
def codepointsToString (cps : List Nat) : String :=
  String.mk (cps.map Char.ofNat)

/-- Model of the `bitstring.ConstBitStream` object opened by `Tree.open`:
the backing bytes of the file, the current bit position, and whether the
stream is still open. -/
structure ConstBitStream where
  data : List Nat
  pos : Nat
  isOpen : Bool
deriving DecidableEq

/-- Model of `ConstBitStream(filename=file_path)`: a fresh stream over the
file's bytes, positioned at bit 0. -/
def ConstBitStream.fromFile (file : List Nat) : ConstBitStream :=
  ⟨file, 0, true⟩

/-- Model of `stream.read(nbits)` followed by `.bytes`: if fewer than `nbits`
bits remain, bitstring raises `ReadError` (modelled as `none`); otherwise the
bits are returned and the position advances.  Only the byte-aligned reads the
source performs (64 bits at bit offset 0) are modelled, so the bits read are
a byte slice of the data. -/
def ConstBitStream.read (s : ConstBitStream) (nbits : Nat) :
    Option (List Nat × ConstBitStream) :=
  if s.pos + nbits ≤ 8 * s.data.length then
    some ((s.data.drop (s.pos / 8)).take (nbits / 8), { s with pos := s.pos + nbits })
  else none

/-- Model of the stream release performed by the `with` statement's exit. -/
def ConstBitStream.close (s : ConstBitStream) : ConstBitStream :=
  { s with isOpen := false }

/-- Model of the `SubItem` dataclass: a single attribute `length`, an integer
with no validation. -/
structure SubItem where
  length : Int
deriving DecidableEq

/-- Model of the `Tree` class data: its class-level annotation declares an
ordered sequence of SubItems. -/
structure Tree where
  subitems : List SubItem
deriving DecidableEq

/-- The errors `Tree.open` can propagate: `InvalidFileIdentifier` (from the
repository's `exceptions` module, carrying the formatted message),
bitstring's `ReadError` on a short read, and Python's `UnicodeDecodeError`
when formatting the message fails on non-UTF-8 identifier bytes. -/
inductive TreeError
  | invalidFileIdentifier (msg : String)
  | readError
  | unicodeDecodeError
deriving DecidableEq

/-- The identifier check of `Tree.open` (the spec's Header Validator), applied
to the 8 bytes read: if they differ from `b"NEKOTREE"`, build the message
`"Invalid file identifier: "` followed by the bytes decoded as UTF-8 and raise
`InvalidFileIdentifier`; the decode itself can fail first.  On a match the
function falls through, returning `None` (no Tree is built). -/
def checkIdentifier (identifier : List Nat) : Except TreeError (Option Tree) :=
  if identifier ≠ NEKOTREE then
    match utf8Decode identifier with
    | some cps =>
      Except.error (TreeError.invalidFileIdentifier
        ("Invalid file identifier: " ++ codepointsToString cps))
    | none => Except.error TreeError.unicodeDecodeError
  else Except.ok none

/-- The body of the `with` block in `Tree.open`: read `8 * 8` bits from the
stream and run the identifier check.  The result pairs the outcome with the
stream state handed to the `with` statement's exit. -/
def Tree.openBody (s : ConstBitStream) : Except TreeError (Option Tree) × ConstBitStream :=
  match s.read (8 * 8) with
  | none => (Except.error TreeError.readError, s)
  | some (identifier, s1) => (checkIdentifier identifier, s1)

/-- Model of `Tree.open(file_path)`: scoped-open the file as a bit stream, run
the body, and close the stream on exit (the `with` statement closes it on
every exit path, normal or exceptional).  Returns the outcome together with
the final stream state. -/
def Tree.open' (file : List Nat) : Except TreeError (Option Tree) × ConstBitStream :=
  let s0 := ConstBitStream.fromFile file
  let res := Tree.openBody s0
  (res.1, res.2.close)

/-- The caller-visible outcome of `Tree.open`. -/
def Tree.openResult (file : List Nat) : Except TreeError (Option Tree) :=
  (Tree.open' file).1

/-- The file system visible to `Tree.create`, as a map from paths to bytes. -/
abbrev FileSystem := List (String × List Nat)

/-- Model of `Tree.create(file_path, subitems)`: the body is `pass`, so the
file system is untouched and `None` is returned. -/
def Tree.create (filePath : String) (subitems : List SubItem) (fs : FileSystem) :
    Option Tree × FileSystem :=
  (none, fs)

/-- Reading the 64-bit identifier from a file of at least 8 bytes yields its
first 8 bytes and advances the position. -/
theorem fromFile_read_of_long (f : List Nat) (h8 : 8 ≤ f.length) :
    (ConstBitStream.fromFile f).read (8 * 8) = some (f.take 8, ⟨f, 8 * 8, true⟩) := by
  unfold ConstBitStream.fromFile ConstBitStream.read
  simp only []
  rw [if_pos (by omega)]
  norm_num

/-- Reading the 64-bit identifier from a file of fewer than 8 bytes fails
(bitstring's `ReadError`). -/
theorem fromFile_read_of_short (f : List Nat) (h8 : f.length < 8) :
    (ConstBitStream.fromFile f).read (8 * 8) = none := by
  unfold ConstBitStream.fromFile ConstBitStream.read
  simp only []
  rw [if_neg (by omega)]

/-- On a file of at least 8 bytes, the outcome of `Tree.open` is the
identifier check applied to the first 8 bytes. -/
theorem openResult_of_long (f : List Nat) (h8 : 8 ≤ f.length) :
    Tree.openResult f = checkIdentifier (f.take 8) := by
  simp only [Tree.openResult, Tree.open', Tree.openBody, fromFile_read_of_long f h8]

/-- On a file of fewer than 8 bytes, `Tree.open` propagates the short-read
error. -/
theorem openResult_of_short (f : List Nat) (h8 : f.length < 8) :
    Tree.openResult f = Except.error TreeError.readError := by
  simp only [Tree.openResult, Tree.open', Tree.openBody, fromFile_read_of_short f h8]

/-- The first 8 bytes of `NEKOTREE ++ rest` are exactly `NEKOTREE`. -/
theorem take_eight_nekotree_append (rest : List Nat) :
    (NEKOTREE ++ rest).take 8 = NEKOTREE := by
  simp [NEKOTREE]

/-- A file starting with the 8 identifier bytes has length at least 8. -/
theorem nekotree_append_length (rest : List Nat) : 8 ≤ (NEKOTREE ++ rest).length := by
  rw [List.length_append]
  have h : NEKOTREE.length = 8 := rfl
  omega

/-- C1 (amended): for every file of at least 8 bytes whose first 8 bytes are
not `NEKOTREE`, `Tree.open` reads exactly those 8 bytes, compares them against
the literal, and raises `InvalidFileIdentifier` when the bytes decode as
UTF-8; when they do not, building the error message itself fails and a
Unicode decode error propagates instead of `InvalidFileIdentifier`. -/
theorem open_mismatch_raises :
    ∀ f : List Nat, 8 ≤ f.length → f.take 8 ≠ NEKOTREE →
      (∃ cps, utf8Decode (f.take 8) = some cps ∧
        Tree.openResult f = Except.error (TreeError.invalidFileIdentifier
          ("Invalid file identifier: " ++ codepointsToString cps))) ∨
      (utf8Decode (f.take 8) = none ∧
        Tree.openResult f = Except.error TreeError.unicodeDecodeError) := by
  intro f h8 hne
  rw [openResult_of_long f h8]
  unfold checkIdentifier
  rw [if_pos hne]
  cases hdec : utf8Decode (f.take 8) with
  | none => exact Or.inr ⟨rfl, rfl⟩
  | some cps => exact Or.inl ⟨cps, rfl, rfl⟩

/-- C1 witness: the file `XXXXXXXX` (eight bytes 0x58) satisfies the
hypotheses, and the mismatch raises `InvalidFileIdentifier`. -/
theorem open_mismatch_raises_witness :
    8 ≤ (List.replicate 8 88 : List Nat).length ∧
    (List.replicate 8 88 : List Nat).take 8 ≠ NEKOTREE ∧
    ((∃ cps, utf8Decode ((List.replicate 8 88 : List Nat).take 8) = some cps ∧
        Tree.openResult (List.replicate 8 88) = Except.error (TreeError.invalidFileIdentifier
          ("Invalid file identifier: " ++ codepointsToString cps))) ∨
      (utf8Decode ((List.replicate 8 88 : List Nat).take 8) = none ∧
        Tree.openResult (List.replicate 8 88) = Except.error TreeError.unicodeDecodeError)) :=
  ⟨by decide, by decide, open_mismatch_raises (List.replicate 8 88) (by decide) (by decide)⟩

/-- C1 counterexample: the file of eight 0xFF bytes has a mismatching
identifier, yet `Tree.open` does not raise `InvalidFileIdentifier`: the
message formatting fails first with a Unicode decode error. -/
theorem open_mismatch_nonUtf8_counterexample :
    Tree.openResult (List.replicate 8 0xFF) = Except.error TreeError.unicodeDecodeError ∧
      ∀ msg : String, Tree.openResult (List.replicate 8 0xFF) ≠
        Except.error (TreeError.invalidFileIdentifier msg) := by
  have h0 : Tree.openResult (List.replicate 8 0xFF) =
      Except.error TreeError.unicodeDecodeError := rfl
  refine ⟨h0, fun msg h => ?_⟩
  rw [h0] at h
  simp at h

/-- C2: for every file whose first 8 bytes are exactly `NEKOTREE`,
`Tree.open` does not raise `InvalidFileIdentifier`, whatever bytes follow. -/
theorem open_valid_magic_no_invalidFileIdentifier :
    ∀ (rest : List Nat) (msg : String),
      Tree.openResult (NEKOTREE ++ rest) ≠
        Except.error (TreeError.invalidFileIdentifier msg) := by
  intro rest msg
  rw [openResult_of_long _ (nekotree_append_length rest), take_eight_nekotree_append]
  simp [checkIdentifier]

/-- C3 counterexample: on a file with a valid magic identifier, `Tree.open`
returns `None`, not a `Tree` value. -/
theorem open_no_tree_counterexample :
    Tree.openResult NEKOTREE = Except.ok none ∧
      ∀ t : Tree, Tree.openResult NEKOTREE ≠ Except.ok (some t) := by
  have h0 : Tree.openResult NEKOTREE = Except.ok none := rfl
  refine ⟨h0, fun t h => ?_⟩
  rw [h0] at h
  simp at h

/-- C3 (amended): on every file whose first 8 bytes are the valid magic
identifier, `Tree.open` completes without error but returns `None` to the
caller; no `Tree` value is built or returned. -/
theorem open_valid_magic_returns_none :
    ∀ rest : List Nat, Tree.openResult (NEKOTREE ++ rest) = Except.ok none := by
  intro rest
  rw [openResult_of_long _ (nekotree_append_length rest), take_eight_nekotree_append]
  simp [checkIdentifier]

/-- C4: the stream opened by `Tree.open` is released on every exit path: the
final stream state after the `with` block is closed for every input file,
whether the identifier check succeeded, failed, or the read itself failed. -/
theorem open_releases_stream :
    ∀ file : List Nat, ((Tree.open' file).2).isOpen = false := fun _ => rfl

/-- C5: when the first 8 bytes mismatch and decode as UTF-8 text, the
`InvalidFileIdentifier` error raised by `Tree.open` carries a message that
includes the 8 bytes actually read, decoded as text. -/
theorem open_error_message_includes_bytes :
    ∀ (f cps : List Nat), 8 ≤ f.length → f.take 8 ≠ NEKOTREE →
      utf8Decode (f.take 8) = some cps →
      Tree.openResult f = Except.error (TreeError.invalidFileIdentifier
        ("Invalid file identifier: " ++ codepointsToString cps)) := by
  intro f cps h8 hne hdec
  rw [openResult_of_long f h8]
  unfold checkIdentifier
  rw [if_pos hne, hdec]

/-- C5 witness: the file `NEKOTRFF` raises `InvalidFileIdentifier` with a
message referencing `NEKOTRFF`. -/
theorem open_error_message_includes_bytes_witness :
    8 ≤ ([78, 69, 75, 79, 84, 82, 70, 70] : List Nat).length ∧
    ([78, 69, 75, 79, 84, 82, 70, 70] : List Nat).take 8 ≠ NEKOTREE ∧
    utf8Decode (([78, 69, 75, 79, 84, 82, 70, 70] : List Nat).take 8) =
      some [78, 69, 75, 79, 84, 82, 70, 70] ∧
    Tree.openResult [78, 69, 75, 79, 84, 82, 70, 70] =
      Except.error (TreeError.invalidFileIdentifier "Invalid file identifier: NEKOTRFF") := by
  refine ⟨by decide, by decide, by decide, ?_⟩
  have h := open_error_message_includes_bytes [78, 69, 75, 79, 84, 82, 70, 70]
    [78, 69, 75, 79, 84, 82, 70, 70] (by decide) (by decide) (by decide)
  have hmsg : ("Invalid file identifier: " ++
      codepointsToString [78, 69, 75, 79, 84, 82, 70, 70]) =
      "Invalid file identifier: NEKOTRFF" := rfl
  rw [hmsg] at h
  exact h

/-- C6: `Tree.create` performs no observable effect on any input: the file
system is unchanged and no value is returned. -/
theorem create_no_observable_effect :
    ∀ (filePath : String) (subitems : List SubItem) (fs : FileSystem),
      Tree.create filePath subitems fs = (none, fs) := fun _ _ _ => rfl

/-- C7: opening a file shorter than 8 bytes fails with the stream-reading
primitive's short-read error; it neither succeeds nor pads the identifier. -/
theorem open_short_file_readError :
    ∀ f : List Nat, f.length < 8 →
      Tree.openResult f = Except.error TreeError.readError ∧
        ∀ r : Option Tree, Tree.openResult f ≠ Except.ok r := by
  intro f h8
  refine ⟨openResult_of_short f h8, fun r h => ?_⟩
  rw [openResult_of_short f h8] at h
  simp at h

/-- C7 witness: a 3-byte file triggers the short-read error. -/
theorem open_short_file_readError_witness :
    ([78, 69, 75] : List Nat).length < 8 ∧
      (Tree.openResult [78, 69, 75] = Except.error TreeError.readError ∧
        ∀ r : Option Tree, Tree.openResult [78, 69, 75] ≠ Except.ok r) :=
  ⟨by decide, open_short_file_readError [78, 69, 75] (by decide)⟩

/-- C8: constructing a `SubItem` with any integer length succeeds, the stored
length is exactly the given value, and no range validation is applied. -/
theorem subItem_no_range_validation :
    ∀ n : Int, (SubItem.mk n).length = n := fun _ => rfl

/-- C9: the outcome of `Tree.open` depends only on the first 8 bytes of the
file: two files with identical first 8 bytes produce identical outcomes, and
bytes at offset 8 and beyond are never read. -/
theorem open_depends_only_on_first_8_bytes :
    ∀ f g : List Nat, f.take 8 = g.take 8 → Tree.openResult f = Tree.openResult g := by
  intro f g h
  have hlen : min 8 f.length = min 8 g.length := by
    have hl := congrArg List.length h
    simpa [List.length_take] using hl
  by_cases h8 : 8 ≤ f.length
  · have h8g : 8 ≤ g.length := by omega
    rw [openResult_of_long f h8, openResult_of_long g h8g, h]
  · have h8g : g.length < 8 := by omega
    rw [openResult_of_short f (by omega), openResult_of_short g h8g]

/-- C9 witness: two files sharing their first 8 bytes but with different
tails produce the same outcome. -/
theorem open_depends_only_on_first_8_bytes_witness :
    ([78, 69, 75, 79, 84, 82, 69, 69, 1] : List Nat).take 8 =
      ([78, 69, 75, 79, 84, 82, 69, 69, 2, 3] : List Nat).take 8 ∧
    Tree.openResult [78, 69, 75, 79, 84, 82, 69, 69, 1] =
      Tree.openResult [78, 69, 75, 79, 84, 82, 69, 69, 2, 3] :=
  ⟨by decide, open_depends_only_on_first_8_bytes _ _ (by decide)⟩

/-- C10: no operation of the public interface ever constructs a `Tree`
instance: `Tree.open` never returns one, and `Tree.create` returns none. -/
theorem no_tree_instance_ever_constructed :
    (∀ (f : List Nat) (t : Tree), Tree.openResult f ≠ Except.ok (some t)) ∧
      (∀ (p : String) (its : List SubItem) (fs : FileSystem),
        (Tree.create p its fs).1 = none) := by
  constructor
  · intro f t h
    by_cases h8 : 8 ≤ f.length
    · rw [openResult_of_long f h8] at h
      unfold checkIdentifier at h
      by_cases hne : f.take 8 ≠ NEKOTREE
      · rw [if_pos hne] at h
        cases hdec : utf8Decode (f.take 8) <;> rw [hdec] at h <;> simp at h
      · rw [if_neg hne] at h
        simp at h
    · rw [openResult_of_short f (by omega)] at h
      simp at h
  · intro p its fs
    rfl

end DotTree
